import Mathlib

/-!
Verification of the resilient API client core of the Spacetraders-Zero
repository (src/src/api/client.py), as a shallow embedding in Lean.

Time is modelled as an exact rational-valued clock carried in the client
state; time.sleep(d) advances the clock by d, and the duration of a
transport call advances it as well.  Python floats are modelled as exact
rationals (type Q below, an unnormalised fraction with kernel-friendly
integer arithmetic; all comparisons are by cross-multiplication, so they
agree with rational value comparisons whenever denominators are positive,
which every fraction built by the model is).  JSON values are modelled by
the nested inductive JVal.
-/

namespace STZ

/-- Exact fraction num/den used to model Python float arithmetic. -/
structure Q where
  num : Int
  den : Nat
deriving DecidableEq, Repr

instance : OfNat Q n := ⟨⟨n, 1⟩⟩

instance : Add Q := ⟨fun a b => ⟨a.num * b.den + b.num * a.den, a.den * b.den⟩⟩

instance : Sub Q := ⟨fun a b => ⟨a.num * b.den - b.num * a.den, a.den * b.den⟩⟩

instance : Mul Q := ⟨fun a b => ⟨a.num * b.num, a.den * b.den⟩⟩

/-- Division of fractions, keeping the denominator nonnegative. -/
def Q.div (a b : Q) : Q :=
  if 0 ≤ b.num then ⟨a.num * b.den, a.den * b.num.toNat⟩
  else ⟨-(a.num * b.den), a.den * (-b.num).toNat⟩

instance : Div Q := ⟨Q.div⟩

instance : LE Q := ⟨fun a b => a.num * b.den ≤ b.num * a.den⟩

instance : LT Q := ⟨fun a b => a.num * b.den < b.num * a.den⟩

instance (a b : Q) : Decidable (a ≤ b) := by
  show Decidable (a.num * b.den ≤ b.num * a.den); infer_instance

instance (a b : Q) : Decidable (a < b) := by
  show Decidable (a.num * b.den < b.num * a.den); infer_instance

/-- Value equality of fractions (Python float equality). -/
def Q.eqv (a b : Q) : Prop := a.num * b.den = b.num * a.den

instance (a b : Q) : Decidable (Q.eqv a b) := by
  show Decidable (a.num * b.den = b.num * a.den); infer_instance

/-- Python max of two floats (returns the first argument on ties). -/
def Q.pymax (a b : Q) : Q := if a < b then b else a

/-- Python min of two floats (returns the first argument on ties). -/
def Q.pymin (a b : Q) : Q := if b < a then b else a

/-- Embedding of a natural number count as a fraction. -/
def Q.ofNat (n : Nat) : Q := ⟨n, 1⟩

/-- Model of a Python JSON-ish value (dict, list, str, int, bool, None). -/
inductive JVal where
  | str (s : String)
  | num (n : Int)
  | jbool (b : Bool)
  | null
  | arr (xs : List JVal)
  | obj (fs : List (String × JVal))

mutual

/-- Python equality on JSON-ish values (dicts compared field-list-wise). -/
def JVal.beq : JVal → JVal → Bool
  | .str a, .str b => a == b
  | .num a, .num b => a == b
  | .jbool a, .jbool b => a == b
  | .null, .null => true
  | .arr a, .arr b => beqArr a b
  | .obj a, .obj b => beqObj a b
  | _, _ => false

/-- Elementwise equality of JSON lists. -/
def beqArr : List JVal → List JVal → Bool
  | [], [] => true
  | x :: xs, y :: ys => x.beq y && beqArr xs ys
  | _, _ => false

/-- Fieldwise equality of JSON objects. -/
def beqObj : List (String × JVal) → List (String × JVal) → Bool
  | [], [] => true
  | (k1, v1) :: xs, (k2, v2) :: ys => k1 == k2 && v1.beq v2 && beqObj xs ys
  | _, _ => false

end

/-- Python truthiness of a JSON-ish value. -/
def JVal.truthy : JVal → Bool
  | .str s => s ≠ ""
  | .num n => n ≠ 0
  | .jbool b => b
  | .null => false
  | .arr xs => !xs.isEmpty
  | .obj fs => !fs.isEmpty

/-- Lookup of a key in a JSON object field list (Python dict lookup). -/
def jLookup (k : String) : List (String × JVal) → Option JVal
  | [] => none
  | (k1, v) :: fs => if k1 = k then some v else jLookup k fs

/-- Python collections.deque append with a maxlen cap: the oldest element
is evicted when the capacity is exceeded. -/
def appendCapped (cap : Nat) (xs : List α) (x : α) : List α :=
  let ys := xs ++ [x]
  ys.drop (ys.length - cap)

/-- CircuitState enum from client.py. -/
inductive CircuitState where
  | CLOSED
  | OPEN
  | HALF_OPEN
deriving DecidableEq, Repr

/-- CacheEntry from client.py: payload, validator tokens, stored-at time. -/
structure CacheEntry where
  data : JVal
  etag : Option String
  last_modified : Option String
  timestamp : Q

/-- Request window (seconds) fixed in SpaceTradersClient.__init__. -/
def request_window : Q := 1

/-- Burst limit from __init__ (also the deque maxlen of the timestamps). -/
def burst_limit : Nat := 10

/-- Maxlen of the request_timestamps deque. -/
def timestamps_maxlen : Nat := 10

/-- Maxlen of the response_times deque. -/
def response_times_maxlen : Nat := 50

/-- Rate adjustment threshold (seconds) from __init__. -/
def rate_adjustment_threshold : Q := 1

/-- Rate adjustment interval (seconds) from __init__. -/
def rate_adjustment_interval : Q := 60

/-- Error threshold of the circuit breaker from __init__. -/
def error_threshold : Nat := 5

/-- Reset timeout of the circuit breaker from __init__. -/
def reset_timeout : Q := 60

/-- Success threshold of the circuit breaker from __init__. -/
def success_threshold : Nat := 3

/-- Cache TTL from __init__. -/
def cache_ttl : Q := 60

/-- Retry count of _make_request. -/
def max_retries : Nat := 3

/-- Base backoff delay of _make_request (also the Retry-After fallback). -/
def base_delay : Q := 2

/-- Mutable state of a SpaceTradersClient instance, plus the model clock.
The source also sets last_error_time to the construction time (and then to
None); it is always re-assigned by a recorded failure before the breaker
reads it, so it is carried here as a plain fraction. -/
structure ClientState where
  cache : List (String × CacheEntry)
  circuit_state : CircuitState
  error_count : Nat
  success_count : Nat
  last_error_time : Q
  request_timestamps : List Q
  response_times : List Q
  requests_per_second : Q
  min_request_interval : Q
  last_rate_adjustment : Q
  clock : Q

/-- Client state as built by SpaceTradersClient.__init__ at time t0. -/
def initState (t0 : Q) : ClientState where
  cache := []
  circuit_state := .CLOSED
  error_count := 0
  success_count := 0
  last_error_time := t0
  request_timestamps := []
  response_times := []
  requests_per_second := 2
  min_request_interval := (1 : Q) / 2
  last_rate_adjustment := t0
  clock := t0

/-- Observable effects of one _make_request run, in order. -/
inductive Event where
  | transportCall
  | sleepRateWait (d : Q)
  | sleepMinInterval (d : Q)
  | sleepRetryAfter (d : Q)
  | sleepBackoff (d : Q)
  | recordResult (success : Bool)
deriving DecidableEq, Repr

/-- Mean of a list of fractions (statistics.mean). -/
def listMean (xs : List Q) : Q := (xs.foldr (· + ·) 0) / Q.ofNat xs.length

/-- Adaptive rate adjustment step of _wait_for_rate_limit (lines 95-109):
when due and at least one latency sample exists, shrink or grow
requests_per_second according to the mean latency. -/
def adjust_rate (st : ClientState) : ClientState :=
  let current_time := st.clock
  if (rate_adjustment_interval < current_time - st.last_rate_adjustment ∨
      Q.eqv st.last_rate_adjustment 0) ∧ 0 < st.response_times.length then
    let avg := listMean st.response_times
    let old_rate := st.requests_per_second
    let new_rate :=
      if rate_adjustment_threshold < avg then
        Q.pymax 1 (st.requests_per_second * ⟨7, 10⟩)
      else if avg < rate_adjustment_threshold * ⟨1, 2⟩ then
        Q.pymin 10 (st.requests_per_second * ⟨11, 10⟩)
      else st.requests_per_second
    if ¬ Q.eqv old_rate new_rate then
      { st with requests_per_second := new_rate,
                min_request_interval := (1 : Q) / new_rate,
                last_rate_adjustment := current_time }
    else st
  else st

/-- Burst wait step of _wait_for_rate_limit (lines 111-115): when the
burst limit is hit, sleep until the oldest request expires. -/
def burst_wait (ts : List Q) (current_time : Q) (st : ClientState) :
    ClientState × List Event :=
  if burst_limit ≤ ts.length then
    let wait_time := ts.headD 0 + request_window - current_time
    if 0 < wait_time then
      ({ st with clock := st.clock + wait_time }, [Event.sleepRateWait wait_time])
    else (st, [])
  else (st, [])

/-- Minimum-interval step of _wait_for_rate_limit (lines 117-121).  Note
that the source still uses the entry-time clock here, not the post-sleep
clock. -/
def min_interval_wait (ts : List Q) (current_time : Q) (st : ClientState) :
    ClientState × List Event :=
  if ts ≠ [] then
    let elapsed := current_time - ts.getLastD 0
    if elapsed < st.min_request_interval then
      let d := st.min_request_interval - elapsed
      ({ st with clock := st.clock + d }, [Event.sleepMinInterval d])
    else (st, [])
  else (st, [])

/-- Translation of SpaceTradersClient._wait_for_rate_limit: cleanup of
expired timestamps, adaptive adjustment, burst wait, minimum-interval
wait, then recording of the issue timestamp.  Returns the updated state
(clock advanced by the sleeps performed) with the sleep events in order. -/
def wait_for_rate_limit (st : ClientState) : ClientState × List Event :=
  let current_time := st.clock
  let ts := st.request_timestamps.dropWhile (fun t => request_window < current_time - t)
  let st1 := adjust_rate st
  let b := burst_wait ts current_time st1
  let m := min_interval_wait ts current_time b.1
  ({ m.1 with request_timestamps := appendCapped timestamps_maxlen ts m.1.clock },
   b.2 ++ m.2)

/-- Translation of SpaceTradersClient._check_circuit_breaker: returns
whether the request is allowed, and the (possibly updated) state. -/
def check_circuit_breaker (st : ClientState) : Bool × ClientState :=
  if st.circuit_state = .OPEN then
    if reset_timeout < st.clock - st.last_error_time then
      (true, { st with circuit_state := .HALF_OPEN, success_count := 0 })
    else (false, st)
  else (true, st)

/-- Translation of SpaceTradersClient._update_circuit_state. -/
def update_circuit_state (success : Bool) (st : ClientState) : ClientState :=
  if success then
    if st.circuit_state = .HALF_OPEN then
      let sc := st.success_count + 1
      if success_threshold ≤ sc then
        { st with success_count := sc, circuit_state := .CLOSED, error_count := 0 }
      else { st with success_count := sc }
    else { st with error_count := st.error_count - 1 }
  else
    let ec := st.error_count + 1
    let st := { st with error_count := ec, last_error_time := st.clock }
    if error_threshold ≤ ec ∧ st.circuit_state ≠ .OPEN then
      { st with circuit_state := .OPEN }
    else st

/-- Lexicographic order on (key, value) pairs, as Python sorted() compares
string tuples. -/
def pairLe (a b : String × String) : Prop :=
  a.1 < b.1 ∨ (a.1 = b.1 ∧ a.2 ≤ b.2)

instance : DecidableRel pairLe := fun a b => by
  unfold pairLe; infer_instance

/-- Translation of the f-string "k=v" join of _get_cache_key.  Python
sorts the (key, value) pairs lexicographically; insertionSort with the
lexicographic order computes the same sorted sequence. -/
def paramStr (params : List (String × String)) : String :=
  String.intercalate "&" ((params.insertionSort pairLe).map
    (fun kv => kv.1 ++ "=" ++ kv.2))

/-- Cache key derivation from _get_cache_key. -/
def get_cache_key (endpoint : String) (params : List (String × String)) : String :=
  if params ≠ [] then endpoint ++ "?" ++ paramStr params else endpoint

/-- Lookup in the client cache dict. -/
def cacheLookup (cache : List (String × CacheEntry)) (key : String) : Option CacheEntry :=
  match cache with
  | [] => none
  | (k, e) :: rest => if k = key then some e else cacheLookup rest key

/-- Store into the client cache dict (replace existing key, else append). -/
def cacheStore (cache : List (String × CacheEntry)) (key : String) (e : CacheEntry) :
    List (String × CacheEntry) :=
  match cache with
  | [] => [(key, e)]
  | (k, e0) :: rest =>
    if k = key then (k, e) :: rest else (k, e0) :: cacheStore rest key e

/-- Translation of SpaceTradersClient._get_cached_response: the cached
payload when present and not expired. -/
def get_cached_response (st : ClientState) (endpoint : String)
    (params : List (String × String)) : Option JVal :=
  match cacheLookup st.cache (get_cache_key endpoint params) with
  | some e => if st.clock - e.timestamp < cache_ttl then some e.data else none
  | none => none

/-- Model of one HTTP response from the transport: status code, the
headers read by _make_request, the JSON body, and the round-trip time. -/
structure HttpResponse where
  status : Nat
  retry_after : Option Nat
  etag : Option String
  last_modified : Option String
  body : JVal
  duration : Q

/-- Outcome of one transport attempt: either a response, or a
requests.RequestException raised by the transport itself (connection
failure / timeout), which also consumes wall time. -/
inductive TransportOutcome where
  | resp (r : HttpResponse)
  | exc (msg : String) (duration : Q)

/-- Message carried by the HTTPError that response.raise_for_status raises
for a status ≥ 400 (modelled up to its text). -/
def httpErrorMsg (status : Nat) : String :=
  toString status ++ " Error"

/-- Message carried by a transport outcome when it is treated as a
requests.RequestException by the except branch of _make_request. -/
def outcomeMsg : TransportOutcome → String
  | .resp r => httpErrorMsg r.status
  | .exc m _ => m

/-- Result of a _make_request call: the returned payload or the exception
that propagates (RuntimeError for circuit-open / retries-exhausted,
ValueError for a missing token or an unsupported method). -/
inductive ReqResult where
  | ok (data : JVal)
  | circuitOpen (endpoint : String)
  | noToken
  | badMethod (method : String)
  | failed (msg : String)

/-- Translation of SpaceTradersClient._update_cache: replace the entry for
the key wholesale with the fresh payload, validators, and stored-at time. -/
def update_cache (endpoint : String) (params : List (String × String))
    (r : HttpResponse) (st : ClientState) : ClientState :=
  let e : CacheEntry :=
    { data := r.body, etag := r.etag, last_modified := r.last_modified,
      timestamp := st.clock }
  { st with cache := cacheStore st.cache (get_cache_key endpoint params) e }

/-- Clock advance by a sleep or by the duration of a transport call. -/
def advanceClock (d : Q) (st : ClientState) : ClientState :=
  { st with clock := st.clock + d }

/-- Clock advance of a completed transport call together with the
response-time sample recording of line 261. -/
def recordLatency (d : Q) (st : ClientState) : ClientState :=
  { st with clock := st.clock + d,
            response_times := appendCapped response_times_maxlen st.response_times d }

/-- Backoff delay of lines 292-294: base_delay * 2 ^ attempt plus the
jitter drawn by random.uniform. -/
def backoff_delay (jitter : Nat → Q) (attempt : Nat) : Q :=
  base_delay * Q.ofNat (2 ^ attempt) + jitter attempt

/-- Outcome of one iteration of the retry loop: either the call finishes
with a result, or the loop continues with the next attempt. -/
inductive StepOut where
  | done (res : ReqResult) (st : ClientState) (ev : List Event)
  | next (st : ClientState) (ev : List Event)

/-- Prefixes events onto the trace of a step outcome. -/
def StepOut.prepend (ev : List Event) : StepOut → StepOut
  | .done res st ev2 => .done res st (ev ++ ev2)
  | .next st ev2 => .next st (ev ++ ev2)

/-- Except branch of _make_request (lines 285-301): a breaker failure is
recorded; with attempts remaining the loop sleeps an exponential backoff
with jitter and retries, otherwise it raises the retries-exhausted error
carrying the underlying message. -/
def handle_exception (jitter : Nat → Q) (attempt : Nat) (msg : String)
    (st : ClientState) : StepOut :=
  let st := update_circuit_state false st
  if attempt < max_retries - 1 then
    let delay := backoff_delay jitter attempt
    .next (advanceClock delay st) [Event.recordResult false, Event.sleepBackoff delay]
  else
    .done (.failed ("Failed to connect to SpaceTraders API: " ++ msg)) st
      [Event.recordResult false]

/-- Status dispatch of _make_request (lines 263-283), applied to the state
with the latency already recorded: 429 sleeps Retry-After and continues;
304 returns the cached payload; other statuses of at least 400 raise into
the except branch; success updates the cache (GET) and the breaker. -/
def handle_response (jitter : Nat → Q) (method endpoint : String)
    (params : List (String × String)) (attempt : Nat) (r : HttpResponse)
    (st : ClientState) : StepOut :=
  if r.status = 429 then
    let ra := Q.ofNat (r.retry_after.getD 2)
    .next (advanceClock ra st) [Event.sleepRetryAfter ra]
  else if r.status = 304 then
    match cacheLookup st.cache (get_cache_key endpoint params) with
    | some e => .done (.ok e.data) st []
    | none => .done (.ok (JVal.obj [("data", JVal.str "test")])) st []
  else if 400 ≤ r.status then
    handle_exception jitter attempt (httpErrorMsg r.status) st
  else
    let st1 := if method = "GET" then update_cache endpoint params r st else st
    .done (.ok r.body) (update_circuit_state true st1) [Event.recordResult true]

/-- One iteration of the retry loop of _make_request (lines 239-301):
rate-limit wait, transport call (for a supported method), then response or
exception handling.  The transport is a script giving the outcome of each
attempt; an unsupported method raises ValueError out of the loop. -/
def attempt_once (script : Nat → TransportOutcome) (jitter : Nat → Q)
    (method endpoint : String) (params : List (String × String))
    (attempt : Nat) (st : ClientState) : StepOut :=
  let w := wait_for_rate_limit st
  if method = "GET" ∨ method = "POST" ∨ method = "PATCH" then
    match script attempt with
    | .exc msg dur =>
      StepOut.prepend (w.2 ++ [Event.transportCall])
        (handle_exception jitter attempt msg (advanceClock dur w.1))
    | .resp r =>
      StepOut.prepend (w.2 ++ [Event.transportCall])
        (handle_response jitter method endpoint params attempt r
          (recordLatency r.duration w.1))
  else .done (.badMethod method) w.1 w.2

/-- Translation of the retry loop of _make_request (lines 236-303): the
loop body runs while attempts remain; falling off the end of the loop
(only possible when every attempt was consumed by the 429 branch) raises
the generic retries-exceeded error of line 303.  fuel counts the attempts
still available (max_retries minus attempt); events are appended to the
trace in order. -/
def make_request_loop (script : Nat → TransportOutcome) (jitter : Nat → Q)
    (method endpoint : String) (params : List (String × String)) :
    Nat → Nat → ClientState → List Event → ReqResult × ClientState × List Event
  | 0, _, st, tr =>
    (.failed "Maximum retries exceeded with no specific error", st, tr)
  | fuel + 1, attempt, st, tr =>
    match attempt_once script jitter method endpoint params attempt st with
    | .done res st1 ev => (res, st1, tr ++ ev)
    | .next st1 ev =>
      make_request_loop script jitter method endpoint params fuel (attempt + 1) st1
        (tr ++ ev)

/-- Cache hit as _make_request sees it: the cached response must be
present, unexpired, and truthy (an empty dict payload falls through to
the network, because the source tests the payload with a bare if). -/
def cached_truthy (st : ClientState) (endpoint : String)
    (params : List (String × String)) : Option JVal :=
  match get_cached_response st endpoint params with
  | some d => if d.truthy then some d else none
  | none => none

/-- Translation of SpaceTradersClient._make_request: circuit-breaker
check, auth check, cache check for GET, then the retry loop. -/
def make_request (script : Nat → TransportOutcome) (jitter : Nat → Q)
    (method endpoint : String) (params : List (String × String))
    (has_token requires_auth : Bool) (st : ClientState) :
    ReqResult × ClientState × List Event :=
  let (allowed, st) := check_circuit_breaker st
  if !allowed then (.circuitOpen endpoint, st, [])
  else if requires_auth && !has_token then (.noToken, st, [])
  else
    let hit : Option JVal :=
      if method = "GET" then cached_truthy st endpoint params else none
    match hit with
    | some d => (.ok d, st, [])
    | none => make_request_loop script jitter method endpoint params max_retries 0 st []

/-- Discriminates backoff sleep events in a trace. -/
def isBackoff : Event → Bool
  | .sleepBackoff _ => true
  | _ => false

/-- Transport outcomes that make the try body of _make_request raise a
requests.RequestException: a connection-level failure, or a response whose
raise_for_status raises (status at least 400) that is not handled by the
429 branch first. -/
def raises (o : TransportOutcome) : Prop :=
  (∃ m d, o = .exc m d) ∨ (∃ r, o = .resp r ∧ 400 ≤ r.status ∧ r.status ≠ 429)

/-- Retryable transport failures in the sense of the spec: a connection
failure or a 5xx response. -/
def retryable (o : TransportOutcome) : Prop :=
  (∃ m d, o = .exc m d) ∨ (∃ r, o = .resp r ∧ 500 ≤ r.status)

/-! ## Lemmas about the rate limiter -/

theorem appendCapped_length (cap : Nat) (xs : List α) (x : α) :
    (appendCapped cap xs x).length = min (xs.length + 1) cap := by
  simp only [appendCapped, List.length_drop, List.length_append, List.length_singleton]
  omega

/-- Rate adjustment only rewrites the rate fields. -/
theorem adjust_rate_preserves (st : ClientState) :
    (adjust_rate st).circuit_state = st.circuit_state ∧
    (adjust_rate st).error_count = st.error_count ∧
    (adjust_rate st).success_count = st.success_count ∧
    (adjust_rate st).last_error_time = st.last_error_time ∧
    (adjust_rate st).cache = st.cache ∧
    (adjust_rate st).response_times = st.response_times ∧
    (adjust_rate st).clock = st.clock ∧
    (adjust_rate st).request_timestamps = st.request_timestamps := by
  refine ⟨?_, ?_, ?_, ?_, ?_, ?_, ?_, ?_⟩
  all_goals simp only [adjust_rate]
  all_goals split_ifs
  all_goals simp

/-- Burst wait only advances the clock. -/
theorem burst_wait_preserves (ts : List Q) (t : Q) (st : ClientState) :
    (burst_wait ts t st).1.circuit_state = st.circuit_state ∧
    (burst_wait ts t st).1.error_count = st.error_count ∧
    (burst_wait ts t st).1.success_count = st.success_count ∧
    (burst_wait ts t st).1.last_error_time = st.last_error_time ∧
    (burst_wait ts t st).1.cache = st.cache ∧
    (burst_wait ts t st).1.response_times = st.response_times ∧
    (burst_wait ts t st).1.request_timestamps = st.request_timestamps ∧
    (burst_wait ts t st).1.min_request_interval = st.min_request_interval := by
  refine ⟨?_, ?_, ?_, ?_, ?_, ?_, ?_, ?_⟩
  all_goals simp only [burst_wait]
  all_goals split_ifs
  all_goals simp

/-- Minimum-interval wait only advances the clock. -/
theorem min_interval_wait_preserves (ts : List Q) (t : Q) (st : ClientState) :
    (min_interval_wait ts t st).1.circuit_state = st.circuit_state ∧
    (min_interval_wait ts t st).1.error_count = st.error_count ∧
    (min_interval_wait ts t st).1.success_count = st.success_count ∧
    (min_interval_wait ts t st).1.last_error_time = st.last_error_time ∧
    (min_interval_wait ts t st).1.cache = st.cache ∧
    (min_interval_wait ts t st).1.response_times = st.response_times ∧
    (min_interval_wait ts t st).1.request_timestamps = st.request_timestamps := by
  refine ⟨?_, ?_, ?_, ?_, ?_, ?_, ?_⟩
  all_goals simp only [min_interval_wait]
  all_goals split_ifs
  all_goals simp

/-- Acquiring the rate limiter does not touch the breaker state, the
cache, or the latency samples. -/
theorem wait_preserves (st : ClientState) :
    (wait_for_rate_limit st).1.circuit_state = st.circuit_state ∧
    (wait_for_rate_limit st).1.error_count = st.error_count ∧
    (wait_for_rate_limit st).1.success_count = st.success_count ∧
    (wait_for_rate_limit st).1.last_error_time = st.last_error_time ∧
    (wait_for_rate_limit st).1.cache = st.cache ∧
    (wait_for_rate_limit st).1.response_times = st.response_times := by
  have ha := adjust_rate_preserves st
  have hb := burst_wait_preserves
    (st.request_timestamps.dropWhile (fun t => request_window < st.clock - t))
    st.clock (adjust_rate st)
  have hm := min_interval_wait_preserves
    (st.request_timestamps.dropWhile (fun t => request_window < st.clock - t))
    st.clock
    (burst_wait (st.request_timestamps.dropWhile (fun t => request_window < st.clock - t))
      st.clock (adjust_rate st)).1
  unfold wait_for_rate_limit
  simp only
  obtain ⟨a1, a2, a3, a4, a5, a6, a7, a8⟩ := ha
  obtain ⟨b1, b2, b3, b4, b5, b6, b7, b8⟩ := hb
  obtain ⟨m1, m2, m3, m4, m5, m6, m7⟩ := hm
  refine ⟨?_, ?_, ?_, ?_, ?_, ?_⟩ <;> simp_all

/-- Burst wait emits only rate-wait sleep events. -/
theorem burst_wait_events (ts : List Q) (t : Q) (st : ClientState) :
    ∀ e ∈ (burst_wait ts t st).2, ∃ d, e = Event.sleepRateWait d := by
  intro e he
  simp only [burst_wait] at he
  split_ifs at he <;> simp_all

/-- Minimum-interval wait emits only min-interval sleep events. -/
theorem min_interval_wait_events (ts : List Q) (t : Q) (st : ClientState) :
    ∀ e ∈ (min_interval_wait ts t st).2, ∃ d, e = Event.sleepMinInterval d := by
  intro e he
  simp only [min_interval_wait] at he
  split_ifs at he <;> simp_all

/-- Acquiring the rate limiter emits only rate-wait and minimum-interval
sleep events. -/
theorem wait_events_sleep (st : ClientState) :
    ∀ e ∈ (wait_for_rate_limit st).2,
      (∃ d, e = Event.sleepRateWait d) ∨ (∃ d, e = Event.sleepMinInterval d) := by
  intro e he
  unfold wait_for_rate_limit at he
  simp only [List.mem_append] at he
  rcases he with he | he
  · exact .inl (burst_wait_events _ _ _ _ he)
  · exact .inr (min_interval_wait_events _ _ _ _ he)

theorem wait_count_transport (st : ClientState) :
    ((wait_for_rate_limit st).2).count Event.transportCall = 0 := by
  rw [List.count_eq_zero]
  intro h
  rcases wait_events_sleep st _ h with ⟨d, hd⟩ | ⟨d, hd⟩ <;> simp_all

theorem wait_count_record (st : ClientState) (b : Bool) :
    ((wait_for_rate_limit st).2).count (Event.recordResult b) = 0 := by
  rw [List.count_eq_zero]
  intro h
  rcases wait_events_sleep st _ h with ⟨d, hd⟩ | ⟨d, hd⟩ <;> simp_all

theorem wait_count_retryAfter (st : ClientState) (d0 : Q) :
    ((wait_for_rate_limit st).2).count (Event.sleepRetryAfter d0) = 0 := by
  rw [List.count_eq_zero]
  intro h
  rcases wait_events_sleep st _ h with ⟨d, hd⟩ | ⟨d, hd⟩ <;> simp_all

theorem wait_filter_backoff (st : ClientState) :
    ((wait_for_rate_limit st).2.filter isBackoff).length = 0 := by
  rw [List.length_eq_zero, List.filter_eq_nil_iff]
  intro e he
  rcases wait_events_sleep st _ he with ⟨d, hd⟩ | ⟨d, hd⟩ <;> simp [hd, isBackoff]

/-! ## Lemmas about the circuit breaker check -/

/-- With the breaker Closed, the check allows and changes nothing. -/
theorem check_closed (st : ClientState) (h : st.circuit_state = .CLOSED) :
    check_circuit_breaker st = (true, st) := by
  unfold check_circuit_breaker
  rw [h]
  simp

/-- With the breaker Open inside the cool-down, the check blocks. -/
theorem check_open_blocked (st : ClientState) (h : st.circuit_state = .OPEN)
    (ht : ¬ reset_timeout < st.clock - st.last_error_time) :
    check_circuit_breaker st = (false, st) := by
  unfold check_circuit_breaker
  rw [h]
  simp [ht]

/-- With the breaker Open past the cool-down, the check transitions to
HalfOpen, resets the success counter, and allows the request. -/
theorem check_open_to_half (st : ClientState) (h : st.circuit_state = .OPEN)
    (ht : reset_timeout < st.clock - st.last_error_time) :
    check_circuit_breaker st =
      (true, { st with circuit_state := .HALF_OPEN, success_count := 0 }) := by
  unfold check_circuit_breaker
  rw [h]
  simp [ht]

/-! ## Dispatch lemmas for _make_request -/

/-- With the breaker Closed, a valid token, and no usable cache hit,
_make_request runs the retry loop on the unchanged state. -/
theorem make_request_closed_loop (script : Nat → TransportOutcome) (jitter : Nat → Q)
    (method endpoint : String) (params : List (String × String))
    (has_token requires_auth : Bool) (st : ClientState)
    (hb : st.circuit_state = .CLOSED)
    (hauth : requires_auth = false ∨ has_token = true)
    (hcache : method = "GET" → cached_truthy st endpoint params = none) :
    make_request script jitter method endpoint params has_token requires_auth st =
      make_request_loop script jitter method endpoint params max_retries 0 st [] := by
  unfold make_request
  rw [check_closed st hb]
  rcases hauth with h | h <;> subst h
  all_goals by_cases hm : method = "GET"
  all_goals simp_all

/-- With the breaker Closed, a valid token, and a fresh truthy cache hit,
a GET returns the cached payload with no transport call, no rate-limiter
interaction, and the client state entirely unchanged. -/
theorem make_request_cache_hit (script : Nat → TransportOutcome) (jitter : Nat → Q)
    (endpoint : String) (params : List (String × String))
    (has_token requires_auth : Bool) (st : ClientState) (d : JVal)
    (hb : st.circuit_state = .CLOSED)
    (hauth : requires_auth = false ∨ has_token = true)
    (hcache : cached_truthy st endpoint params = some d) :
    make_request script jitter "GET" endpoint params has_token requires_auth st =
      (.ok d, st, []) := by
  unfold make_request
  rw [check_closed st hb]
  rcases hauth with h | h <;> subst h
  all_goals simp_all

/-- With the breaker Open inside the cool-down, _make_request raises the
circuit-open error at once, with no transport call and no state change. -/
theorem make_request_open_blocked (script : Nat → TransportOutcome) (jitter : Nat → Q)
    (method endpoint : String) (params : List (String × String))
    (has_token requires_auth : Bool) (st : ClientState)
    (hb : st.circuit_state = .OPEN)
    (ht : ¬ reset_timeout < st.clock - st.last_error_time) :
    make_request script jitter method endpoint params has_token requires_auth st =
      (.circuitOpen endpoint, st, []) := by
  unfold make_request
  rw [check_open_blocked st hb ht]
  simp

/-- With the breaker Open past the cool-down but no token available, an
authenticated call transitions the breaker to HalfOpen and then raises the
missing-token error before any transport call. -/
theorem make_request_open_to_half_no_token (script : Nat → TransportOutcome)
    (jitter : Nat → Q) (method endpoint : String) (params : List (String × String))
    (st : ClientState) (hb : st.circuit_state = .OPEN)
    (ht : reset_timeout < st.clock - st.last_error_time) :
    make_request script jitter method endpoint params false true st =
      (.noToken, { st with circuit_state := .HALF_OPEN, success_count := 0 }, []) := by
  unfold make_request
  rw [check_open_to_half st hb ht]
  simp

/-! ## Step lemmas for the retry loop -/

theorem loop_zero (script : Nat → TransportOutcome) (jitter : Nat → Q)
    (method endpoint : String) (params : List (String × String))
    (attempt : Nat) (st : ClientState) (tr : List Event) :
    make_request_loop script jitter method endpoint params 0 attempt st tr =
      (.failed "Maximum retries exceeded with no specific error", st, tr) := rfl

theorem loop_next (script : Nat → TransportOutcome) (jitter : Nat → Q)
    (method endpoint : String) (params : List (String × String))
    (fuel attempt : Nat) (st st1 : ClientState) (tr ev : List Event)
    (h : attempt_once script jitter method endpoint params attempt st = .next st1 ev) :
    make_request_loop script jitter method endpoint params (fuel + 1) attempt st tr =
      make_request_loop script jitter method endpoint params fuel (attempt + 1) st1
        (tr ++ ev) := by
  rw [make_request_loop, h]

theorem loop_done (script : Nat → TransportOutcome) (jitter : Nat → Q)
    (method endpoint : String) (params : List (String × String))
    (fuel attempt : Nat) (st st1 : ClientState) (tr ev : List Event) (res : ReqResult)
    (h : attempt_once script jitter method endpoint params attempt st = .done res st1 ev) :
    make_request_loop script jitter method endpoint params (fuel + 1) attempt st tr =
      (res, st1, tr ++ ev) := by
  rw [make_request_loop, h]

/-- One attempt on a connection-level failure with attempts remaining. -/
theorem ao_exc_retry (script : Nat → TransportOutcome) (jitter : Nat → Q)
    (method endpoint : String) (params : List (String × String))
    (attempt : Nat) (st : ClientState) (msg : String) (dur : Q)
    (hm : method = "GET" ∨ method = "POST" ∨ method = "PATCH")
    (ho : script attempt = .exc msg dur) (hlt : attempt < max_retries - 1) :
    attempt_once script jitter method endpoint params attempt st =
      .next
        (advanceClock (backoff_delay jitter attempt)
          (update_circuit_state false (advanceClock dur (wait_for_rate_limit st).1)))
        ((wait_for_rate_limit st).2 ++
          [Event.transportCall, Event.recordResult false,
           Event.sleepBackoff (backoff_delay jitter attempt)]) := by
  simp [attempt_once, handle_exception, StepOut.prepend, ho, if_pos hm, hlt]

/-- One attempt on a connection-level failure on the last attempt. -/
theorem ao_exc_last (script : Nat → TransportOutcome) (jitter : Nat → Q)
    (method endpoint : String) (params : List (String × String))
    (attempt : Nat) (st : ClientState) (msg : String) (dur : Q)
    (hm : method = "GET" ∨ method = "POST" ∨ method = "PATCH")
    (ho : script attempt = .exc msg dur) (hlt : ¬ attempt < max_retries - 1) :
    attempt_once script jitter method endpoint params attempt st =
      .done (.failed ("Failed to connect to SpaceTraders API: " ++ msg))
        (update_circuit_state false (advanceClock dur (wait_for_rate_limit st).1))
        ((wait_for_rate_limit st).2 ++
          [Event.transportCall, Event.recordResult false]) := by
  simp [attempt_once, handle_exception, StepOut.prepend, ho, if_pos hm, hlt]

/-- One attempt on a non-429 response of status at least 400 with attempts
remaining: the HTTPError of raise_for_status lands in the except branch. -/
theorem ao_http_retry (script : Nat → TransportOutcome) (jitter : Nat → Q)
    (method endpoint : String) (params : List (String × String))
    (attempt : Nat) (st : ClientState) (r : HttpResponse)
    (hm : method = "GET" ∨ method = "POST" ∨ method = "PATCH")
    (ho : script attempt = .resp r) (h400 : 400 ≤ r.status) (h429 : r.status ≠ 429)
    (hlt : attempt < max_retries - 1) :
    attempt_once script jitter method endpoint params attempt st =
      .next
        (advanceClock (backoff_delay jitter attempt)
          (update_circuit_state false (recordLatency r.duration (wait_for_rate_limit st).1)))
        ((wait_for_rate_limit st).2 ++
          [Event.transportCall, Event.recordResult false,
           Event.sleepBackoff (backoff_delay jitter attempt)]) := by
  have h304 : ¬ r.status = 304 := by omega
  simp [attempt_once, handle_response, handle_exception, StepOut.prepend, ho,
    if_pos hm, hlt, h429, h304, h400]

/-- One attempt on a non-429 response of status at least 400 on the last
attempt. -/
theorem ao_http_last (script : Nat → TransportOutcome) (jitter : Nat → Q)
    (method endpoint : String) (params : List (String × String))
    (attempt : Nat) (st : ClientState) (r : HttpResponse)
    (hm : method = "GET" ∨ method = "POST" ∨ method = "PATCH")
    (ho : script attempt = .resp r) (h400 : 400 ≤ r.status) (h429 : r.status ≠ 429)
    (hlt : ¬ attempt < max_retries - 1) :
    attempt_once script jitter method endpoint params attempt st =
      .done (.failed ("Failed to connect to SpaceTraders API: " ++ httpErrorMsg r.status))
        (update_circuit_state false (recordLatency r.duration (wait_for_rate_limit st).1))
        ((wait_for_rate_limit st).2 ++
          [Event.transportCall, Event.recordResult false]) := by
  have h304 : ¬ r.status = 304 := by omega
  simp [attempt_once, handle_response, handle_exception, StepOut.prepend, ho,
    if_pos hm, hlt, h429, h304, h400]

/-- One attempt on a 429 response: sleep Retry-After (or the base delay)
and continue; no breaker result is recorded. -/
theorem ao_429 (script : Nat → TransportOutcome) (jitter : Nat → Q)
    (method endpoint : String) (params : List (String × String))
    (attempt : Nat) (st : ClientState) (r : HttpResponse)
    (hm : method = "GET" ∨ method = "POST" ∨ method = "PATCH")
    (ho : script attempt = .resp r) (h429 : r.status = 429) :
    attempt_once script jitter method endpoint params attempt st =
      .next
        (advanceClock (Q.ofNat (r.retry_after.getD 2))
          (recordLatency r.duration (wait_for_rate_limit st).1))
        ((wait_for_rate_limit st).2 ++
          [Event.transportCall,
           Event.sleepRetryAfter (Q.ofNat (r.retry_after.getD 2))]) := by
  simp [attempt_once, handle_response, StepOut.prepend, ho, if_pos hm, h429]

/-- One attempt on a 304 response with a cache entry present: return the
cached payload; neither the cache nor the breaker is touched. -/
theorem ao_304_hit (script : Nat → TransportOutcome) (jitter : Nat → Q)
    (method endpoint : String) (params : List (String × String))
    (attempt : Nat) (st : ClientState) (r : HttpResponse) (en : CacheEntry)
    (hm : method = "GET" ∨ method = "POST" ∨ method = "PATCH")
    (ho : script attempt = .resp r) (h304 : r.status = 304)
    (hc : cacheLookup st.cache (get_cache_key endpoint params) = some en) :
    attempt_once script jitter method endpoint params attempt st =
      .done (.ok en.data) (recordLatency r.duration (wait_for_rate_limit st).1)
        ((wait_for_rate_limit st).2 ++ [Event.transportCall]) := by
  have h429 : ¬ r.status = 429 := by omega
  have hc1 : cacheLookup (recordLatency r.duration (wait_for_rate_limit st).1).cache
      (get_cache_key endpoint params) = some en := by
    have hp := wait_preserves st
    simp only [recordLatency]
    rw [hp.2.2.2.2.1]
    exact hc
  simp [attempt_once, handle_response, StepOut.prepend, ho, if_pos hm, h429, h304, hc1]

/-- Uniform step for any raising outcome with attempts remaining. -/
theorem ao_raises_retry (script : Nat → TransportOutcome) (jitter : Nat → Q)
    (method endpoint : String) (params : List (String × String))
    (attempt : Nat) (st : ClientState)
    (hm : method = "GET" ∨ method = "POST" ∨ method = "PATCH")
    (ho : raises (script attempt)) (hlt : attempt < max_retries - 1) :
    ∃ st1, attempt_once script jitter method endpoint params attempt st =
      .next st1
        ((wait_for_rate_limit st).2 ++
          [Event.transportCall, Event.recordResult false,
           Event.sleepBackoff (backoff_delay jitter attempt)]) := by
  rcases ho with ⟨msg, dur, ho⟩ | ⟨r, ho, h400, h429⟩
  · exact ⟨_, ao_exc_retry script jitter method endpoint params attempt st msg dur hm ho hlt⟩
  · exact ⟨_, ao_http_retry script jitter method endpoint params attempt st r hm ho h400 h429 hlt⟩

/-- Uniform step for any raising outcome on the last attempt. -/
theorem ao_raises_last (script : Nat → TransportOutcome) (jitter : Nat → Q)
    (method endpoint : String) (params : List (String × String))
    (attempt : Nat) (st : ClientState)
    (hm : method = "GET" ∨ method = "POST" ∨ method = "PATCH")
    (ho : raises (script attempt)) (hlt : ¬ attempt < max_retries - 1) :
    ∃ st1, attempt_once script jitter method endpoint params attempt st =
      .done (.failed ("Failed to connect to SpaceTraders API: " ++ outcomeMsg (script attempt)))
        st1 ((wait_for_rate_limit st).2 ++
          [Event.transportCall, Event.recordResult false]) := by
  rcases ho with ⟨msg, dur, ho⟩ | ⟨r, ho, h400, h429⟩
  · have hmsg : outcomeMsg (script attempt) = msg := by rw [ho, outcomeMsg]
    rw [hmsg]
    exact ⟨_, ao_exc_last script jitter method endpoint params attempt st msg dur hm ho hlt⟩
  · have hmsg : outcomeMsg (script attempt) = httpErrorMsg r.status := by rw [ho, outcomeMsg]
    rw [hmsg]
    exact ⟨_, ao_http_last script jitter method endpoint params attempt st r hm ho h400 h429 hlt⟩

/-- Full run in which every transport attempt raises: exactly three
transport calls, three recorded breaker failures, two backoff sleeps, and
a retries-exhausted error carrying the last failure message. -/
theorem run_all_raises (script : Nat → TransportOutcome) (jitter : Nat → Q)
    (method endpoint : String) (params : List (String × String))
    (has_token requires_auth : Bool) (st : ClientState)
    (hm : method = "GET" ∨ method = "POST" ∨ method = "PATCH")
    (hb : st.circuit_state = .CLOSED)
    (hauth : requires_auth = false ∨ has_token = true)
    (hcache : method = "GET" → cached_truthy st endpoint params = none)
    (hfail : ∀ i, i < 3 → raises (script i)) :
    (make_request script jitter method endpoint params has_token requires_auth st).1 =
      .failed ("Failed to connect to SpaceTraders API: " ++ outcomeMsg (script 2)) ∧
    ((make_request script jitter method endpoint params has_token requires_auth st).2.2).count
      Event.transportCall = 3 ∧
    ((make_request script jitter method endpoint params has_token requires_auth st).2.2).count
      (Event.recordResult false) = 3 ∧
    ((make_request script jitter method endpoint params has_token requires_auth st).2.2).count
      (Event.recordResult true) = 0 ∧
    (((make_request script jitter method endpoint params has_token requires_auth st).2.2).filter
      isBackoff).length = 2 := by
  rw [make_request_closed_loop script jitter method endpoint params has_token requires_auth st
    hb hauth hcache]
  obtain ⟨s1, h1⟩ := ao_raises_retry script jitter method endpoint params 0 st hm
    (hfail 0 (by omega)) (by decide)
  obtain ⟨s2, h2⟩ := ao_raises_retry script jitter method endpoint params 1 s1 hm
    (hfail 1 (by omega)) (by decide)
  obtain ⟨s3, h3⟩ := ao_raises_last script jitter method endpoint params 2 s2 hm
    (hfail 2 (by omega)) (by decide)
  rw [show max_retries = 2 + 1 from rfl,
    loop_next script jitter method endpoint params 2 0 st s1 [] _ h1,
    loop_next script jitter method endpoint params 1 1 s1 s2 _ _ h2,
    loop_done script jitter method endpoint params 0 2 s2 s3 _ _ _ h3]
  refine ⟨rfl, ?_, ?_, ?_, ?_⟩ <;>
    simp [List.count_append, List.filter_append, wait_count_transport, wait_count_record,
      wait_filter_backoff, isBackoff]

/-- Full run in which every transport attempt is rate-limited with no
Retry-After header: three transport calls, three fallback sleeps of the
base delay, no recorded breaker result at all, and the generic
retries-exceeded error. -/
theorem run_all_429 (script : Nat → TransportOutcome) (jitter : Nat → Q)
    (method endpoint : String) (params : List (String × String))
    (has_token requires_auth : Bool) (st : ClientState)
    (hm : method = "GET" ∨ method = "POST" ∨ method = "PATCH")
    (hb : st.circuit_state = .CLOSED)
    (hauth : requires_auth = false ∨ has_token = true)
    (hcache : method = "GET" → cached_truthy st endpoint params = none)
    (h429 : ∀ i, i < 3 → ∃ r, script i = .resp r ∧ r.status = 429 ∧ r.retry_after = none) :
    (make_request script jitter method endpoint params has_token requires_auth st).1 =
      .failed "Maximum retries exceeded with no specific error" ∧
    ((make_request script jitter method endpoint params has_token requires_auth st).2.2).count
      Event.transportCall = 3 ∧
    ((make_request script jitter method endpoint params has_token requires_auth st).2.2).count
      (Event.sleepRetryAfter (Q.ofNat 2)) = 3 ∧
    ((make_request script jitter method endpoint params has_token requires_auth st).2.2).count
      (Event.recordResult false) = 0 ∧
    ((make_request script jitter method endpoint params has_token requires_auth st).2.2).count
      (Event.recordResult true) = 0 := by
  rw [make_request_closed_loop script jitter method endpoint params has_token requires_auth st
    hb hauth hcache]
  obtain ⟨r0, hr0, hs0, ha0⟩ := h429 0 (by omega)
  obtain ⟨r1, hr1, hs1, ha1⟩ := h429 1 (by omega)
  obtain ⟨r2, hr2, hs2, ha2⟩ := h429 2 (by omega)
  obtain ⟨s1, a0⟩ : ∃ s1, attempt_once script jitter method endpoint params 0 st =
      .next s1 ((wait_for_rate_limit st).2 ++
        [Event.transportCall, Event.sleepRetryAfter (Q.ofNat (r0.retry_after.getD 2))]) :=
    ⟨_, ao_429 script jitter method endpoint params 0 st r0 hm hr0 hs0⟩
  obtain ⟨s2, a1⟩ : ∃ s2, attempt_once script jitter method endpoint params 1 s1 =
      .next s2 ((wait_for_rate_limit s1).2 ++
        [Event.transportCall, Event.sleepRetryAfter (Q.ofNat (r1.retry_after.getD 2))]) :=
    ⟨_, ao_429 script jitter method endpoint params 1 s1 r1 hm hr1 hs1⟩
  obtain ⟨s3, a2⟩ : ∃ s3, attempt_once script jitter method endpoint params 2 s2 =
      .next s3 ((wait_for_rate_limit s2).2 ++
        [Event.transportCall, Event.sleepRetryAfter (Q.ofNat (r2.retry_after.getD 2))]) :=
    ⟨_, ao_429 script jitter method endpoint params 2 s2 r2 hm hr2 hs2⟩
  rw [show max_retries = 2 + 1 from rfl,
    loop_next script jitter method endpoint params 2 0 st s1 [] _ a0,
    loop_next script jitter method endpoint params 1 1 s1 s2 _ _ a1,
    loop_next script jitter method endpoint params 0 2 s2 s3 _ _ a2, loop_zero]
  rw [ha0, ha1, ha2]
  refine ⟨rfl, ?_, ?_, ?_, ?_⟩ <;>
    simp [List.count_append, wait_count_transport, wait_count_record, wait_count_retryAfter]

/-! ## Small preservation lemmas for the state transformers -/

theorem advanceClock_fields (d : Q) (st : ClientState) :
    (advanceClock d st).circuit_state = st.circuit_state ∧
    (advanceClock d st).error_count = st.error_count ∧
    (advanceClock d st).success_count = st.success_count ∧
    (advanceClock d st).cache = st.cache := by
  simp [advanceClock]

theorem recordLatency_fields (d : Q) (st : ClientState) :
    (recordLatency d st).circuit_state = st.circuit_state ∧
    (recordLatency d st).error_count = st.error_count ∧
    (recordLatency d st).success_count = st.success_count ∧
    (recordLatency d st).cache = st.cache := by
  simp [recordLatency]

/-! ## Claim C1 -/

def c1_resp400 : HttpResponse :=
  { status := 400, retry_after := none, etag := none, last_modified := none,
    body := .null, duration := 0 }

def c1_script : Nat → TransportOutcome := fun _ => .resp c1_resp400

/-- Claim C1, counterexample.  With a transport answering 400 on every
attempt (breaker closed, empty cache), _make_request performs three
transport attempts, records three breaker failures, and sleeps two
backoffs — contradicting the claim that a 4xx other than 429 records a
single breaker failure and raises immediately with no further transport
attempt and no backoff sleep. -/
theorem c1_4xx_counterexample :
    ((make_request c1_script (fun _ => 0) "GET" "my/agent" [] true true
      (initState 1000)).2.2).count Event.transportCall = 3 ∧
    ((make_request c1_script (fun _ => 0) "GET" "my/agent" [] true true
      (initState 1000)).2.2).count (Event.recordResult false) = 3 ∧
    (((make_request c1_script (fun _ => 0) "GET" "my/agent" [] true true
      (initState 1000)).2.2).filter isBackoff).length = 2 := by
  have h := run_all_raises c1_script (fun _ => 0) "GET" "my/agent" [] true true
    (initState 1000) (Or.inl rfl) rfl (Or.inr rfl) (fun _ => rfl)
    (fun i _ => Or.inr ⟨c1_resp400, rfl, by decide, by decide⟩)
  exact ⟨h.2.1, h.2.2.1, h.2.2.2.2⟩

/-- Claim C1, amended.  A 4xx response other than 429 is not surfaced
immediately: _make_request treats it like any retryable transport error.
With every attempt answered by such a status, it records one breaker
failure per attempt (three in total), sleeps a backoff between attempts
(two in total), and raises the retries-exhausted RuntimeError carrying the
last failure only after exactly three transport attempts. -/
theorem c1_4xx_retried (script : Nat → TransportOutcome) (jitter : Nat → Q)
    (method endpoint : String) (params : List (String × String))
    (has_token requires_auth : Bool) (st : ClientState)
    (hm : method = "GET" ∨ method = "POST" ∨ method = "PATCH")
    (hb : st.circuit_state = .CLOSED)
    (hauth : requires_auth = false ∨ has_token = true)
    (hcache : method = "GET" → cached_truthy st endpoint params = none)
    (h4xx : ∀ i, i < 3 →
      ∃ r, script i = .resp r ∧ 400 ≤ r.status ∧ r.status < 500 ∧ r.status ≠ 429) :
    (make_request script jitter method endpoint params has_token requires_auth st).1 =
      .failed ("Failed to connect to SpaceTraders API: " ++ outcomeMsg (script 2)) ∧
    ((make_request script jitter method endpoint params has_token requires_auth st).2.2).count
      Event.transportCall = 3 ∧
    ((make_request script jitter method endpoint params has_token requires_auth st).2.2).count
      (Event.recordResult false) = 3 ∧
    (((make_request script jitter method endpoint params has_token requires_auth st).2.2).filter
      isBackoff).length = 2 := by
  have h := run_all_raises script jitter method endpoint params has_token requires_auth st
    hm hb hauth hcache
    (fun i hi => by
      obtain ⟨r, hr, h1, h2, h3⟩ := h4xx i hi
      exact Or.inr ⟨r, hr, h1, h3⟩)
  exact ⟨h.1, h.2.1, h.2.2.1, h.2.2.2.2⟩

def c1_wresp : HttpResponse :=
  { status := 404, retry_after := none, etag := none, last_modified := none,
    body := .null, duration := 0 }

def c1_wscript : Nat → TransportOutcome := fun _ => .resp c1_wresp

/-- Witness for the amended claim C1 at a concrete 404-answering input. -/
theorem c1_4xx_retried_witness :
    (make_request c1_wscript (fun _ => 0) "POST" "my/ships" [] true true
      (initState 1000)).1 =
      .failed ("Failed to connect to SpaceTraders API: " ++ outcomeMsg (c1_wscript 2)) ∧
    ((make_request c1_wscript (fun _ => 0) "POST" "my/ships" [] true true
      (initState 1000)).2.2).count Event.transportCall = 3 := by
  have h := c1_4xx_retried c1_wscript (fun _ => 0) "POST" "my/ships" [] true true
    (initState 1000) (Or.inr (Or.inl rfl)) rfl (Or.inr rfl) (fun hx => by simp_all)
    (fun i _ => ⟨c1_wresp, rfl, by decide, by decide, by decide⟩)
  exact ⟨h.1, h.2.1⟩

/-! ## Claim C7 -/

/-- Claim C7.  With max_retries = 3 and a transport failing with a
retryable error (a 5xx response or a connection failure) on every attempt,
_make_request performs exactly three transport attempts and raises the
retries-exhausted RuntimeError carrying the last underlying failure. -/
theorem c7_retries_exhausted (script : Nat → TransportOutcome) (jitter : Nat → Q)
    (method endpoint : String) (params : List (String × String))
    (has_token requires_auth : Bool) (st : ClientState)
    (hm : method = "GET" ∨ method = "POST" ∨ method = "PATCH")
    (hb : st.circuit_state = .CLOSED)
    (hauth : requires_auth = false ∨ has_token = true)
    (hcache : method = "GET" → cached_truthy st endpoint params = none)
    (hfail : ∀ i, i < 3 → retryable (script i)) :
    (make_request script jitter method endpoint params has_token requires_auth st).1 =
      .failed ("Failed to connect to SpaceTraders API: " ++ outcomeMsg (script 2)) ∧
    ((make_request script jitter method endpoint params has_token requires_auth st).2.2).count
      Event.transportCall = 3 := by
  have h := run_all_raises script jitter method endpoint params has_token requires_auth st
    hm hb hauth hcache
    (fun i hi => by
      rcases hfail i hi with ⟨msg, dur, hr⟩ | ⟨r, hr, h500⟩
      · exact Or.inl ⟨msg, dur, hr⟩
      · exact Or.inr ⟨r, hr, by omega, by omega⟩)
  exact ⟨h.1, h.2.1⟩

def c7_resp500 : HttpResponse :=
  { status := 500, retry_after := none, etag := none, last_modified := none,
    body := .null, duration := 0 }

def c7_script : Nat → TransportOutcome := fun _ => .resp c7_resp500

/-- Witness for claim C7 at a concrete always-500 transport. -/
theorem c7_retries_exhausted_witness :
    (make_request c7_script (fun _ => 0) "GET" "my/contracts" [] true true
      (initState 1000)).1 =
      .failed ("Failed to connect to SpaceTraders API: " ++ outcomeMsg (c7_script 2)) ∧
    ((make_request c7_script (fun _ => 0) "GET" "my/contracts" [] true true
      (initState 1000)).2.2).count Event.transportCall = 3 := by
  exact c7_retries_exhausted c7_script (fun _ => 0) "GET" "my/contracts" [] true true
    (initState 1000) (Or.inl rfl) rfl (Or.inr rfl) (fun _ => rfl)
    (fun i _ => Or.inr ⟨c7_resp500, rfl, by decide⟩)

/-! ## Claim C4 -/

def c4_resp429 : HttpResponse :=
  { status := 429, retry_after := none, etag := none, last_modified := none,
    body := .null, duration := 0 }

def c4_script : Nat → TransportOutcome := fun _ => .resp c4_resp429

/-- Claim C4, counterexample.  With every attempt answered 429 and no
Retry-After header, the call sleeps the fallback delay three times and
records no breaker result, but the third 429 is not retried: only three
transport attempts happen and the call raises the generic retries-exceeded
RuntimeError, because each 429 consumes a retry attempt. -/
theorem c4_429_counterexample :
    (make_request c4_script (fun _ => 0) "GET" "my/agent" [] true true
      (initState 1000)).1 =
      .failed "Maximum retries exceeded with no specific error" ∧
    ((make_request c4_script (fun _ => 0) "GET" "my/agent" [] true true
      (initState 1000)).2.2).count Event.transportCall = 3 ∧
    ((make_request c4_script (fun _ => 0) "GET" "my/agent" [] true true
      (initState 1000)).2.2).count (Event.sleepRetryAfter (Q.ofNat 2)) = 3 ∧
    ((make_request c4_script (fun _ => 0) "GET" "my/agent" [] true true
      (initState 1000)).2.2).count (Event.recordResult false) = 0 := by
  have h := run_all_429 c4_script (fun _ => 0) "GET" "my/agent" [] true true
    (initState 1000) (Or.inl rfl) rfl (Or.inr rfl) (fun _ => rfl)
    (fun i _ => ⟨c4_resp429, rfl, rfl, rfl⟩)
  exact ⟨h.1, h.2.1, h.2.2.1, h.2.2.2.1⟩

/-- Claim C4, amended.  A 429 response makes the executor sleep for the
server-provided Retry-After delay (falling back to the base delay 2 when
the header is absent) and record no circuit-breaker result, leaving the
breaker counters and state untouched; it then continues with the next
attempt — so the 429 consumes one of the max_retries attempts, and the
request is retried only while attempts remain. -/
theorem c4_429_no_breaker_failure (script : Nat → TransportOutcome) (jitter : Nat → Q)
    (method endpoint : String) (params : List (String × String))
    (fuel attempt : Nat) (st : ClientState) (tr : List Event) (r : HttpResponse)
    (hm : method = "GET" ∨ method = "POST" ∨ method = "PATCH")
    (ho : script attempt = .resp r) (h429 : r.status = 429) :
    ∃ st1 ev,
      make_request_loop script jitter method endpoint params (fuel + 1) attempt st tr =
        make_request_loop script jitter method endpoint params fuel (attempt + 1) st1
          (tr ++ ev) ∧
      ev.count (Event.sleepRetryAfter (Q.ofNat (r.retry_after.getD 2))) = 1 ∧
      (∀ b, ev.count (Event.recordResult b) = 0) ∧
      st1.error_count = st.error_count ∧
      st1.circuit_state = st.circuit_state ∧
      st1.success_count = st.success_count := by
  have a := ao_429 script jitter method endpoint params attempt st r hm ho h429
  refine ⟨_, _, loop_next script jitter method endpoint params fuel attempt st _ tr _ a,
    ?_, ?_, ?_, ?_, ?_⟩
  · simp [List.count_append, wait_count_retryAfter]
  · intro b
    simp [List.count_append, wait_count_record]
  all_goals
    have hp := wait_preserves st
    simp [advanceClock, recordLatency, hp.1, hp.2.1, hp.2.2.1]

/-- Witness for the amended claim C4 at a concrete 429 response carrying
Retry-After 7. -/
def c4_wresp : HttpResponse :=
  { status := 429, retry_after := some 7, etag := none, last_modified := none,
    body := .null, duration := 0 }

def c4_wscript : Nat → TransportOutcome := fun _ => .resp c4_wresp

theorem c4_429_no_breaker_failure_witness :
    ∃ st1 ev,
      make_request_loop c4_wscript (fun _ => 0) "GET" "my/agent" [] (2 + 1) 0
        (initState 1000) [] =
        make_request_loop c4_wscript (fun _ => 0) "GET" "my/agent" [] 2 1 st1 ([] ++ ev) ∧
      ev.count (Event.sleepRetryAfter (Q.ofNat (c4_wresp.retry_after.getD 2))) = 1 ∧
      (∀ b, ev.count (Event.recordResult b) = 0) ∧
      st1.error_count = (initState 1000).error_count ∧
      st1.circuit_state = (initState 1000).circuit_state ∧
      st1.success_count = (initState 1000).success_count :=
  c4_429_no_breaker_failure c4_wscript (fun _ => 0) "GET" "my/agent" [] 2 0
    (initState 1000) [] c4_wresp (Or.inl rfl) rfl rfl

/-! ## Claim C3 -/

/-- Claim C3, amended.  A GET answered 304 while a cache entry exists for
its key (necessarily stale or untruthy, otherwise the transport is never
consulted) returns the existing cached payload and takes no new payload
from the network; but the cache entry is left entirely unchanged — the
stored-at timestamp is NOT refreshed (nor are payload or validators
touched). -/
theorem c3_not_modified_returns_cached (script : Nat → TransportOutcome)
    (jitter : Nat → Q) (endpoint : String) (params : List (String × String))
    (has_token requires_auth : Bool) (st : ClientState) (r : HttpResponse)
    (en : CacheEntry)
    (hb : st.circuit_state = .CLOSED)
    (hauth : requires_auth = false ∨ has_token = true)
    (hc : cacheLookup st.cache (get_cache_key endpoint params) = some en)
    (hstale : ¬ st.clock - en.timestamp < cache_ttl)
    (ho : script 0 = .resp r) (h304 : r.status = 304) :
    (make_request script jitter "GET" endpoint params has_token requires_auth st).1 =
      .ok en.data ∧
    (make_request script jitter "GET" endpoint params has_token requires_auth st).2.1.cache =
      st.cache := by
  have hcache : cached_truthy st endpoint params = none := by
    unfold cached_truthy get_cached_response
    rw [hc]
    simp [hstale]
  rw [make_request_closed_loop script jitter "GET" endpoint params has_token requires_auth st
    hb hauth (fun _ => hcache)]
  have a := ao_304_hit script jitter "GET" endpoint params 0 st r en (Or.inl rfl) ho h304 hc
  rw [show max_retries = 2 + 1 from rfl,
    loop_done script jitter "GET" endpoint params 2 0 st _ [] _ _ a]
  have hp := wait_preserves st
  exact ⟨rfl, by simp [recordLatency, hp.2.2.2.2.1]⟩

def c3_entry : CacheEntry :=
  { data := .obj [("data", .str "cached")], etag := some "tag-1",
    last_modified := none, timestamp := 0 }

def c3_state : ClientState :=
  { initState 100 with cache := [("my/agent", c3_entry)] }

def c3_resp304 : HttpResponse :=
  { status := 304, retry_after := none, etag := none, last_modified := none,
    body := .null, duration := 0 }

def c3_script : Nat → TransportOutcome := fun _ => .resp c3_resp304

/-- Claim C3, counterexample.  A stale entry stored at time 0 is answered
304 at clock 100: the call returns the cached payload, but the entry —
including its stored-at timestamp, still 0 — is wholly unchanged, so the
stored-at timestamp was not refreshed as the claim states. -/
theorem c3_timestamp_not_refreshed_counterexample :
    (make_request c3_script (fun _ => 0) "GET" "my/agent" [] true true c3_state).1 =
      .ok c3_entry.data ∧
    (make_request c3_script (fun _ => 0) "GET" "my/agent" [] true true
      c3_state).2.1.cache = c3_state.cache ∧
    cacheLookup c3_state.cache "my/agent" = some c3_entry ∧
    c3_entry.timestamp = (0 : Q) ∧
    c3_state.clock = (100 : Q) := by
  have h := c3_not_modified_returns_cached c3_script (fun _ => 0) "my/agent" [] true true
    c3_state c3_resp304 c3_entry rfl (Or.inr rfl) rfl (by decide) rfl rfl
  exact ⟨h.1, h.2, rfl, rfl, rfl⟩

def c3_wentry : CacheEntry :=
  { data := .obj [("data", .str "old-payload")], etag := none,
    last_modified := some "Mon, 01 Jan 2024 00:00:00 GMT", timestamp := 5 }

def c3_wstate : ClientState :=
  { initState 90 with cache := [("factions", c3_wentry)] }

/-- Witness for the amended claim C3 at a concrete stale entry. -/
theorem c3_not_modified_returns_cached_witness :
    (make_request c3_script (fun _ => 0) "GET" "factions" [] true true c3_wstate).1 =
      .ok c3_wentry.data ∧
    (make_request c3_script (fun _ => 0) "GET" "factions" [] true true
      c3_wstate).2.1.cache = c3_wstate.cache :=
  c3_not_modified_returns_cached c3_script (fun _ => 0) "factions" [] true true
    c3_wstate c3_resp304 c3_wentry rfl (Or.inr rfl) rfl (by decide) rfl rfl

/-! ## Claim C8 -/

/-- Claim C8, amended.  For a GET whose cache entry is fresh (clock minus
stored-at below the TTL) and truthy, and whose circuit breaker is Closed,
the call returns the cached payload with no transport call and no
rate-limiter interaction, and the whole client state — rate-limiter
timestamp window, breaker counters, cache — is unchanged. -/
theorem c8_fresh_hit_no_side_effects (script : Nat → TransportOutcome)
    (jitter : Nat → Q) (endpoint : String) (params : List (String × String))
    (has_token requires_auth : Bool) (st : ClientState) (d : JVal)
    (hb : st.circuit_state = .CLOSED)
    (hauth : requires_auth = false ∨ has_token = true)
    (hcache : cached_truthy st endpoint params = some d) :
    make_request script jitter "GET" endpoint params has_token requires_auth st =
      (.ok d, st, []) :=
  make_request_cache_hit script jitter endpoint params has_token requires_auth st d
    hb hauth hcache

def c8_wentry : CacheEntry :=
  { data := .obj [("data", .str "agent")], etag := none, last_modified := none,
    timestamp := 40 }

def c8_wstate : ClientState :=
  { initState 50 with cache := [("my/agent", c8_wentry)] }

/-- Witness for the amended claim C8 at a concrete fresh truthy entry. -/
theorem c8_fresh_hit_no_side_effects_witness :
    make_request (fun _ => .exc "unused" 0) (fun _ => 0) "GET" "my/agent" [] true true
      c8_wstate = (.ok c8_wentry.data, c8_wstate, []) :=
  c8_fresh_hit_no_side_effects (fun _ => .exc "unused" 0) (fun _ => 0) "my/agent" []
    true true c8_wstate c8_wentry.data rfl (Or.inr rfl) rfl

def c8_centry : CacheEntry :=
  { data := .obj [("data", .str "agent")], etag := none, last_modified := none,
    timestamp := 45 }

def c8_cstate : ClientState :=
  { initState 50 with
      cache := [("my/agent", c8_centry)]
      circuit_state := .OPEN
      error_count := 5
      last_error_time := 50 }

/-- Claim C8, counterexample.  The breaker check runs before the cache
check: with the breaker Open inside its cool-down and a perfectly fresh
truthy cache entry, the call raises the circuit-open RuntimeError instead
of returning the cached payload. -/
theorem c8_open_breaker_counterexample :
    make_request (fun _ => .exc "unused" 0) (fun _ => 0) "GET" "my/agent" [] true true
      c8_cstate = (.circuitOpen "my/agent", c8_cstate, []) ∧
    cached_truthy c8_cstate "my/agent" [] = some c8_centry.data := by
  refine ⟨?_, rfl⟩
  exact make_request_open_blocked (fun _ => .exc "unused" 0) (fun _ => 0) "GET" "my/agent"
    [] true true c8_cstate rfl (by decide)

/-! ## Claim C2: the batch path -/

/-- Translation of SpaceTradersClient._async_get (lines 617-631): an
async GET returns the parsed payload, and returns None on any exception
(raise_for_status failures included). -/
def async_get (transport : String × Option (List (String × String)) → Except String JVal)
    (endpoint : String) (params : Option (List (String × String))) : Option JVal :=
  match transport (endpoint, params) with
  | .ok d => some d
  | .error _ => none

/-- Translation of SpaceTradersClient._batch_get / batch_get (lines
633-655): gather the per-descriptor results in order, then filter out the
failed (None) ones. -/
def batch_get (transport : String × Option (List (String × String)) → Except String JVal)
    (endpoints : List (String × Option (List (String × String)))) : List JVal :=
  (endpoints.map (fun ep => async_get transport ep.1 ep.2)).filterMap id

def c2_eps : List (String × Option (List (String × String))) :=
  [("my/ships/SHIP1", none), ("my/ships/SHIP2", none), ("my/ships/SHIP3", none)]

def c2_transport : String × Option (List (String × String)) → Except String JVal :=
  fun ep =>
    if ep.1 = "my/ships/SHIP2" then .error "500 Error"
    else .ok (.obj [("ship", .str ep.1)])

/-- Claim C2, counterexample.  Given 3 descriptors where only the 2nd
fails, batch_get returns a 2-element list, not a 3-element list with an
error value in slot 2: failed requests are filtered out of the result. -/
theorem c2_batch_length_counterexample :
    (batch_get c2_transport c2_eps).length = 2 ∧ c2_eps.length = 3 := by
  exact ⟨rfl, rfl⟩

/-- Claim C2, amended.  batch_get keeps only the successful payloads, in
input order: given 3 descriptors where only the 2nd fails, the result is
the two-element list of the 1st and 3rd payloads (the failed slot is
dropped, not represented by an error value). -/
theorem c2_batch_drops_failures
    (transport : String × Option (List (String × String)) → Except String JVal)
    (e1 e2 e3 : String × Option (List (String × String)))
    (p1 p3 : JVal) (err : String)
    (h1 : transport e1 = .ok p1) (h2 : transport e2 = .error err)
    (h3 : transport e3 = .ok p3) :
    batch_get transport [e1, e2, e3] = [p1, p3] := by
  simp [batch_get, async_get, h1, h2, h3]

/-- Witness for the amended claim C2 at the concrete failing transport. -/
theorem c2_batch_drops_failures_witness :
    batch_get c2_transport c2_eps =
      [.obj [("ship", .str "my/ships/SHIP1")], .obj [("ship", .str "my/ships/SHIP3")]] :=
  c2_batch_drops_failures c2_transport ("my/ships/SHIP1", none) ("my/ships/SHIP2", none)
    ("my/ships/SHIP3", none) (.obj [("ship", .str "my/ships/SHIP1")])
    (.obj [("ship", .str "my/ships/SHIP3")]) "500 Error" rfl rfl rfl

/-! ## Claim C10: cache key derivation -/

instance : IsTotal (String × String) pairLe := by
  constructor
  intro a b
  rcases lt_trichotomy a.1 b.1 with h | h | h
  · exact Or.inl (Or.inl h)
  · rcases le_total a.2 b.2 with h2 | h2
    · exact Or.inl (Or.inr ⟨h, h2⟩)
    · exact Or.inr (Or.inr ⟨h.symm, h2⟩)
  · exact Or.inr (Or.inl h)

instance : IsTrans (String × String) pairLe := by
  constructor
  intro a b c hab hbc
  rcases hab with h1 | ⟨e1, l1⟩ <;> rcases hbc with h2 | ⟨e2, l2⟩
  · exact Or.inl (lt_trans h1 h2)
  · exact Or.inl (lt_of_lt_of_le h1 (le_of_eq e2))
  · exact Or.inl (lt_of_le_of_lt (le_of_eq e1) h2)
  · exact Or.inr ⟨e1.trans e2, le_trans l1 l2⟩

instance : IsAntisymm (String × String) pairLe := by
  constructor
  intro a b hab hba
  rcases hab with h1 | ⟨e1, l1⟩ <;> rcases hba with h2 | ⟨e2, l2⟩
  · exact absurd h2 (lt_asymm h1)
  · rw [e2] at h1
    exact absurd h1 (lt_irrefl _)
  · rw [e1] at h2
    exact absurd h2 (lt_irrefl _)
  · exact Prod.ext_iff.mpr ⟨e1, le_antisymm l1 l2⟩

/-- Claim C10.  The cache key is independent of the insertion order of
the query-parameter dictionary: two parameter lists holding the same
key-value pairs in any order produce the identical key string, because
the pairs are sorted before being joined. -/
theorem c10_cache_key_order_independent (endpoint : String)
    (p1 p2 : List (String × String)) (h : p1.Perm p2) :
    get_cache_key endpoint p1 = get_cache_key endpoint p2 := by
  have hs : p1.insertionSort pairLe = p2.insertionSort pairLe :=
    List.eq_of_perm_of_sorted
      ((List.perm_insertionSort pairLe p1).trans
        (h.trans (List.perm_insertionSort pairLe p2).symm))
      (List.sorted_insertionSort pairLe p1)
      (List.sorted_insertionSort pairLe p2)
  unfold get_cache_key paramStr
  rw [hs]
  by_cases hn : p1 = []
  · subst hn
    have hn2 : p2 = [] := h.symm.eq_nil
    simp [hn2]
  · have hn2 : p2 ≠ [] := by
      intro he
      subst he
      exact hn h.eq_nil
    simp [hn, hn2]

/-- Witness for claim C10 at two orderings of the same parameters. -/
theorem c10_cache_key_order_independent_witness :
    get_cache_key "systems/X1/waypoints" [("page", "1"), ("limit", "20")] =
      get_cache_key "systems/X1/waypoints" [("limit", "20"), ("page", "1")] :=
  c10_cache_key_order_independent "systems/X1/waypoints"
    [("page", "1"), ("limit", "20")] [("limit", "20"), ("page", "1")] (by decide)

/-! ## Claim C6: the burst bound -/

/-- Discriminates the timestamps lying within the trailing request_window
interval ending at the state clock. -/
def inWindow (st : ClientState) (t : Q) : Bool :=
  decide (st.clock - t ≤ request_window)

/-- Claim C6.  At the moment any acquire (_wait_for_rate_limit) returns —
whatever state the client is in, hence after every possible sequence of
acquire calls — no more than burst_limit recorded issue timestamps lie
within the trailing request_window interval: the timestamps deque itself
never holds more than burst_limit entries (its maxlen equals the burst
limit), and acquire caps it on every append. -/
theorem c6_burst_bound (st : ClientState) :
    (((wait_for_rate_limit st).1.request_timestamps).filter
      (inWindow (wait_for_rate_limit st).1)).length ≤ burst_limit := by
  have hts : (wait_for_rate_limit st).1.request_timestamps =
      appendCapped timestamps_maxlen
        (st.request_timestamps.dropWhile (fun t => request_window < st.clock - t))
        (min_interval_wait
          (st.request_timestamps.dropWhile (fun t => request_window < st.clock - t))
          st.clock
          (burst_wait
            (st.request_timestamps.dropWhile (fun t => request_window < st.clock - t))
            st.clock (adjust_rate st)).1).1.clock := rfl
  calc (((wait_for_rate_limit st).1.request_timestamps).filter
      (inWindow (wait_for_rate_limit st).1)).length
      ≤ ((wait_for_rate_limit st).1.request_timestamps).length :=
        List.length_filter_le _ _
    _ ≤ burst_limit := by
        rw [hts, appendCapped_length]
        exact le_trans (Nat.min_le_right _ _) (by decide)

/-! ## Claim C5: reachable breaker states -/

/-- Characterisation of _update_circuit_state on a failure. -/
theorem update_false_def (st : ClientState) :
    update_circuit_state false st =
      if error_threshold ≤ st.error_count + 1 ∧ st.circuit_state ≠ .OPEN then
        { st with error_count := st.error_count + 1, last_error_time := st.clock,
                  circuit_state := .OPEN }
      else { st with error_count := st.error_count + 1, last_error_time := st.clock } := by
  simp only [update_circuit_state]
  split_ifs <;> simp_all

/-- Characterisation of _update_circuit_state on a success. -/
theorem update_true_def (st : ClientState) :
    update_circuit_state true st =
      if st.circuit_state = .HALF_OPEN then
        if success_threshold ≤ st.success_count + 1 then
          { st with success_count := st.success_count + 1, circuit_state := .CLOSED,
                    error_count := 0 }
        else { st with success_count := st.success_count + 1 }
      else { st with error_count := st.error_count - 1 } := by
  simp only [update_circuit_state]
  split_ifs <;> simp_all

/-- Invariant of the breaker fields between _make_request runs: the error
counter sits strictly below the threshold while Closed, and within one of
the threshold while Open or HalfOpen. -/
def Inv (st : ClientState) : Prop :=
  match st.circuit_state with
  | .CLOSED => st.error_count ≤ error_threshold - 1
  | .OPEN => error_threshold - 1 ≤ st.error_count
  | .HALF_OPEN => error_threshold - 1 ≤ st.error_count

/-- Invariant of the breaker fields inside the retry loop: mid-run, Open
is only entered by a failure that pushed the counter to the threshold (the
counter can then drop by one when the final attempt succeeds while Open,
which is why Inv is weaker than LoopInv). -/
def LoopInv (st : ClientState) : Prop :=
  match st.circuit_state with
  | .CLOSED => st.error_count ≤ error_threshold - 1
  | .OPEN => error_threshold ≤ st.error_count
  | .HALF_OPEN => error_threshold - 1 ≤ st.error_count

theorem Inv_congr {st1 st2 : ClientState}
    (hc : st2.circuit_state = st1.circuit_state)
    (he : st2.error_count = st1.error_count) (h : Inv st1) : Inv st2 := by
  unfold Inv at *
  rw [hc, he]
  exact h

theorem LoopInv_congr {st1 st2 : ClientState}
    (hc : st2.circuit_state = st1.circuit_state)
    (he : st2.error_count = st1.error_count) (h : LoopInv st1) : LoopInv st2 := by
  unfold LoopInv at *
  rw [hc, he]
  exact h

theorem loopinv_inv (st : ClientState) (h : LoopInv st) : Inv st := by
  cases hcs : st.circuit_state
  all_goals simp_all [Inv, LoopInv, hcs]
  all_goals omega

theorem upd_false_loopinv (st : ClientState) (h : LoopInv st) :
    LoopInv (update_circuit_state false st) := by
  rw [update_false_def]
  split_ifs with hcond
  · simp only [LoopInv]
    exact hcond.1
  · cases hcs : st.circuit_state <;>
      simp_all [LoopInv, hcs, error_threshold] <;> omega

theorem upd_true_inv (st : ClientState) (h : LoopInv st) :
    Inv (update_circuit_state true st) := by
  rw [update_true_def]
  split_ifs with h1 h2
  · simp [Inv]
  · simp only [Inv]
    simp_all [LoopInv, h1]
  · cases hcs : st.circuit_state <;>
      simp_all [Inv, LoopInv, hcs, error_threshold] <;> omega

theorem check_inv (st : ClientState) (h : Inv st) :
    Inv (check_circuit_breaker st).2 := by
  unfold check_circuit_breaker
  split_ifs with h1 h2
  · simp only [Inv]
    simp_all [Inv, h1]
  · exact h
  · exact h

theorem check_allowed_loopinv (st : ClientState) (h : Inv st)
    (ha : (check_circuit_breaker st).1 = true) :
    LoopInv (check_circuit_breaker st).2 := by
  unfold check_circuit_breaker at ha ⊢
  split_ifs at ha ⊢ with h1 h2
  · simp only [LoopInv]
    simp_all [Inv, h1]
  · show LoopInv st
    cases hcs : st.circuit_state
    · simp_all [Inv, LoopInv, hcs]
    · exact absurd hcs h1
    · simp_all [Inv, LoopInv, hcs]

theorem prepend_inv (ev : List Event) (so : StepOut) (P R : ClientState → Prop)
    (h : match so with | .done _ st1 _ => P st1 | .next st1 _ => R st1) :
    (match StepOut.prepend ev so with
     | .done _ st1 _ => P st1 | .next st1 _ => R st1) := by
  cases so <;> simpa [StepOut.prepend] using h

theorem handle_exception_inv (jitter : Nat → Q) (attempt : Nat) (msg : String)
    (st : ClientState) (h : LoopInv st) :
    (match handle_exception jitter attempt msg st with
     | .done _ st1 _ => Inv st1 | .next st1 _ => LoopInv st1) := by
  unfold handle_exception
  split_ifs with hlt
  · show LoopInv _
    exact LoopInv_congr (by simp [advanceClock]) (by simp [advanceClock])
      (upd_false_loopinv st h)
  · show Inv _
    exact loopinv_inv _ (upd_false_loopinv st h)

theorem handle_response_inv (jitter : Nat → Q) (method endpoint : String)
    (params : List (String × String)) (attempt : Nat) (r : HttpResponse)
    (st : ClientState) (h : LoopInv st) :
    (match handle_response jitter method endpoint params attempt r st with
     | .done _ st1 _ => Inv st1 | .next st1 _ => LoopInv st1) := by
  unfold handle_response
  split_ifs with h429 h304 h400 hget
  · show LoopInv _
    exact LoopInv_congr (by simp [advanceClock]) (by simp [advanceClock]) h
  · rcases hc : cacheLookup st.cache (get_cache_key endpoint params) with _ | en <;>
      simp only [hc] <;> exact loopinv_inv st h
  · exact handle_exception_inv jitter attempt (httpErrorMsg r.status) st h
  · show Inv _
    exact upd_true_inv _
      (LoopInv_congr (by simp [update_cache]) (by simp [update_cache]) h)
  · show Inv _
    exact upd_true_inv _ h

theorem attempt_once_inv (script : Nat → TransportOutcome) (jitter : Nat → Q)
    (method endpoint : String) (params : List (String × String))
    (attempt : Nat) (st : ClientState) (h : LoopInv st) :
    (match attempt_once script jitter method endpoint params attempt st with
     | .done _ st1 _ => Inv st1 | .next st1 _ => LoopInv st1) := by
  have hw : LoopInv (wait_for_rate_limit st).1 :=
    LoopInv_congr (wait_preserves st).1 (wait_preserves st).2.1 h
  unfold attempt_once
  split_ifs with hm
  · rcases hs : script attempt with r | ⟨msg, dur⟩ <;> simp only [hs]
    · exact prepend_inv _ _ _ _
        (handle_response_inv jitter method endpoint params attempt r _
          (LoopInv_congr (by simp [recordLatency]) (by simp [recordLatency]) hw))
    · exact prepend_inv _ _ _ _
        (handle_exception_inv jitter attempt msg _
          (LoopInv_congr (by simp [advanceClock]) (by simp [advanceClock]) hw))
  · show Inv _
    exact loopinv_inv _ hw

theorem loop_inv (script : Nat → TransportOutcome) (jitter : Nat → Q)
    (method endpoint : String) (params : List (String × String)) (fuel : Nat) :
    ∀ attempt st tr, LoopInv st →
      Inv (make_request_loop script jitter method endpoint params fuel attempt st tr).2.1 := by
  induction fuel with
  | zero =>
    intro attempt st tr h
    rw [loop_zero]
    exact loopinv_inv st h
  | succ fuel ih =>
    intro attempt st tr h
    have ha := attempt_once_inv script jitter method endpoint params attempt st h
    rcases hs : attempt_once script jitter method endpoint params attempt st with
      ⟨res, st1, ev⟩ | ⟨st1, ev⟩
    · rw [hs] at ha
      rw [loop_done script jitter method endpoint params fuel attempt st st1 tr ev res hs]
      exact ha
    · rw [hs] at ha
      rw [loop_next script jitter method endpoint params fuel attempt st st1 tr ev hs]
      exact ih (attempt + 1) st1 (tr ++ ev) ha

theorem make_request_inv (script : Nat → TransportOutcome) (jitter : Nat → Q)
    (method endpoint : String) (params : List (String × String))
    (has_token requires_auth : Bool) (st : ClientState) (h : Inv st) :
    Inv (make_request script jitter method endpoint params has_token requires_auth st).2.1 := by
  unfold make_request
  rcases hc : check_circuit_breaker st with ⟨allowed, st1⟩
  have h1 : Inv st1 := by
    have hx := check_inv st h
    rw [hc] at hx
    exact hx
  cases allowed
  · simpa using h1
  · have h2 : LoopInv st1 := by
      have hx := check_allowed_loopinv st h (by rw [hc])
      rw [hc] at hx
      exact hx
    simp only [Bool.not_true, Bool.false_eq_true, if_false]
    split_ifs with hauth hget
    · exact h1
    · rcases hh : cached_truthy st1 endpoint params with _ | d <;> simp only [hh]
      · exact loop_inv script jitter method endpoint params max_retries 0 st1 [] h2
      · exact h1
    · exact loop_inv script jitter method endpoint params max_retries 0 st1 [] h2

/-- States of the client reachable through the executor: construction,
passage of time, and whole _make_request runs (with any transport script,
jitter, method, parameters, and auth flags).  The circuit state is only
ever mutated by the breaker methods, which _make_request alone invokes. -/
inductive Reachable : ClientState → Prop where
  | init (t0 : Q) : Reachable (initState t0)
  | advance {st : ClientState} (d : Q) : Reachable st → Reachable (advanceClock d st)
  | run {st : ClientState} (script : Nat → TransportOutcome) (jitter : Nat → Q)
      (method endpoint : String) (params : List (String × String))
      (has_token requires_auth : Bool) : Reachable st →
      Reachable (make_request script jitter method endpoint params has_token requires_auth st).2.1

theorem reachable_inv (st : ClientState) (h : Reachable st) : Inv st := by
  induction h with
  | init t0 => simp [Inv, initState]
  | advance d hr ih => exact Inv_congr (by simp [advanceClock]) (by simp [advanceClock]) ih
  | run script jitter method endpoint params has_token requires_auth hr ih =>
    exact make_request_inv script jitter method endpoint params has_token requires_auth _ ih

/-- Claim C5.  In every reachable breaker state (reachable through any
sequence of _make_request runs and time advances) in which the circuit is
HalfOpen, a single recorded failure — one _update_circuit_state(False)
call — transitions the circuit back to Open: HalfOpen is only ever entered
from Open, which required the error counter to reach the threshold, and no
reachable path lowers the counter below threshold-minus-one while the
circuit is not Closed, so one more failure always reaches the threshold
again. -/
theorem c5_halfopen_failure_reopens (st : ClientState) (h : Reachable st)
    (hh : st.circuit_state = .HALF_OPEN) :
    (update_circuit_state false st).circuit_state = .OPEN := by
  have hinv := reachable_inv st h
  simp only [Inv, hh, error_threshold] at hinv
  rw [update_false_def]
  rw [if_pos ⟨by simp only [error_threshold]; omega, by simp [hh]⟩]

def c5_script : Nat → TransportOutcome := fun _ => .exc "connection reset" 0

def c5_s1 : ClientState :=
  (make_request c5_script (fun _ => 0) "POST" "my/ships/S/dock" [] true true
    (initState 0)).2.1

def c5_s2 : ClientState :=
  (make_request c5_script (fun _ => 0) "POST" "my/ships/S/dock" [] true true c5_s1).2.1

def c5_s3 : ClientState := advanceClock 61 c5_s2

def c5_s4 : ClientState :=
  (make_request c5_script (fun _ => 0) "GET" "my/agent" [] false true c5_s3).2.1

/-- Witness for claim C5: after two all-failing runs (six recorded
failures, circuit Open), a 61-second wait, and a run whose breaker check
transitions Open to HalfOpen before failing on the missing token, the
client is in a reachable HalfOpen state, and one recorded failure reopens
the circuit. -/
theorem c5_halfopen_failure_reopens_witness :
    c5_s4.circuit_state = .HALF_OPEN ∧
    (update_circuit_state false c5_s4).circuit_state = .OPEN := by
  have hr : Reachable c5_s4 :=
    .run c5_script (fun _ => 0) "GET" "my/agent" [] false true
      (.advance 61 (.run c5_script (fun _ => 0) "POST" "my/ships/S/dock" [] true true
        (.run c5_script (fun _ => 0) "POST" "my/ships/S/dock" [] true true (.init 0))))
  have hh : c5_s4.circuit_state = .HALF_OPEN := by rfl
  exact ⟨hh, c5_halfopen_failure_reopens c5_s4 hr hh⟩

/-! ## Claim C9: can_ship_mine -/

/-- Python attribute access d.get(key, default): only dicts support .get;
anything else raises AttributeError. -/
def jGetD (j : JVal) (k : String) (default : JVal) : Except String JVal :=
  match j with
  | .obj fs => .ok ((jLookup k fs).getD default)
  | _ => .error "AttributeError: get"

/-- Python d.get(key) with its default of None. -/
def jGet1 (j : JVal) (k : String) : Except String JVal := jGetD j k .null

/-- Python iteration (for x in j): lists yield their elements, strings
their characters, dicts their keys; other values raise TypeError. -/
def jIter (j : JVal) : Except String (List JVal) :=
  match j with
  | .arr xs => .ok xs
  | .str s => .ok (s.toList.map (fun c => .str (String.mk [c])))
  | .obj fs => .ok (fs.map (fun kv => .str kv.1))
  | _ => .error "TypeError: not iterable"

/-- Python membership (a in b): substring test when b is a string (a must
then be a string too), element test for lists, key test for dicts. -/
def jIn (a b : JVal) : Except String Bool :=
  match b with
  | .str s =>
    match a with
    | .str t => .ok (if t.isEmpty then true else (s.splitOn t).length ≠ 1)
    | _ => .error "TypeError: in requires string as left operand"
  | .arr xs => .ok (xs.any (fun x => x.beq a))
  | .obj fs => .ok (fs.any (fun kv => JVal.beq (.str kv.1) a))
  | _ => .error "TypeError: argument of in is not iterable"

/-- Python comparison v > 0 of the cooldown check: ints compare
numerically, bools count as 0 or 1, anything else raises TypeError. -/
def jGtZero (j : JVal) : Except String Bool :=
  match j with
  | .num n => .ok (0 < n)
  | .jbool b => .ok (b = true)
  | _ => .error "TypeError: not comparable with int"

/-- Python comparison a >= b of the cargo check: numbers numerically
(bools as 0 or 1), strings lexicographically, mixed types raise. -/
def jGe (a b : JVal) : Except String Bool :=
  match a, b with
  | .num x, .num y => .ok (y ≤ x)
  | .num x, .jbool y => .ok ((if y then 1 else 0) ≤ x)
  | .jbool x, .num y => .ok (y ≤ (if x then (1 : Int) else 0))
  | .jbool x, .jbool y => .ok ((if y then (1 : Int) else 0) ≤ (if x then 1 else 0))
  | .str x, .str y => .ok (y ≤ x)
  | _, _ => .error "TypeError: not comparable"

/-- Python subscription j[key]: KeyError when the key is absent,
TypeError when j is not a dict. -/
def jIndex (j : JVal) (k : String) : Except String JVal :=
  match j with
  | .obj fs =>
    match jLookup k fs with
    | some v => .ok v
    | none => .error "KeyError"
  | _ => .error "TypeError: not subscriptable"

/-- Python str() as used by the cooldown f-string.  Containers are
rendered opaquely (with \x7b...\x7d for dicts): unreachable here, since
the guard admits only numbers and bools to the f-string. -/
def jStr : JVal → String
  | .str s => s
  | .num n => toString n
  | .jbool b => if b then "True" else "False"
  | .null => "None"
  | .arr _ => "[...]"
  | .obj _ => "\x7b...\x7d"

/-- Result dict of can_ship_mine: the can_mine flag and the optional
reason string. -/
structure MineCheck where
  can_mine : Bool
  reason : Option String
deriving DecidableEq, Repr

/-- Mining-mount loop of can_ship_mine (lines 493-497): stop at the first
mount whose symbol contains MINING_LASER; a mount without .get or a
non-string symbol raises out of the loop. -/
def has_mining_mount_loop : List JVal → Except String Bool
  | [] => .ok false
  | m :: ms =>
    (jGetD m "symbol" (.str "")).bind fun sym =>
    (jIn (.str "MINING_LASER") sym).bind fun b =>
    if b then pure true else has_mining_mount_loop ms

/-- Python next((w for w in ws if p w), None) with an effectful predicate:
the generator is consumed lazily and a raising predicate propagates. -/
def findFirstM (p : JVal → Except String Bool) : List JVal → Except String (Option JVal)
  | [] => .ok none
  | x :: xs =>
    (p x).bind fun b => if b then pure (some x) else findFirstM p xs

/-- Try-body of SpaceTradersClient.can_ship_mine (lines 486-536), as a
function of the results of the three underlying API calls (get_ship,
get_waypoints, get_ship_cooldown), each of which may raise.  Each early
return of the source is a pure result here; every Python operation that
can raise is an Except-valued primitive. -/
def can_ship_mine_checks (ship_resp waypoints_resp cooldown_resp : Except String JVal) :
    Except String MineCheck :=
  ship_resp.bind fun shipJ =>
  (jGetD shipJ "data" (.obj [])).bind fun ship_data =>
  if ¬ ship_data.truthy then pure ⟨false, some "Could not get ship data"⟩
  else
    (jGetD ship_data "mounts" (.arr [])).bind fun mounts =>
    (jIter mounts).bind fun mountList =>
    (has_mining_mount_loop mountList).bind fun has_mining_mount =>
    if ¬ has_mining_mount then pure ⟨false, some "Ship does not have mining equipment"⟩
    else
      (jGetD ship_data "nav" (.obj [])).bind fun nav =>
      (jGet1 nav "status").bind fun status =>
      if ¬ status.beq (.str "IN_ORBIT") then
        pure ⟨false, some "Ship must be in orbit to mine"⟩
      else
        (jGet1 nav "systemSymbol").bind fun system =>
        (jGet1 nav "waypointSymbol").bind fun waypoint =>
        if ¬ system.truthy ∨ ¬ waypoint.truthy then
          pure ⟨false, some "Could not determine ship location"⟩
        else
          waypoints_resp.bind fun wpJ =>
          (jGetD wpJ "data" (.arr [])).bind fun waypoints =>
          (jIter waypoints).bind fun wpList =>
          (findFirstM (fun w => (jGet1 w "symbol").bind fun sym =>
            pure (sym.beq waypoint)) wpList).bind fun current_waypoint =>
          (match current_waypoint with
            | none => pure true
            | some w =>
              if ¬ w.truthy then pure true
              else
                (jGetD w "type" (.str "")).bind fun ty =>
                (jIn (.str "ASTEROID") ty).bind fun b =>
                pure (¬ b)).bind fun not_asteroid =>
          if not_asteroid then pure ⟨false, some "Ship is not at an asteroid field"⟩
          else
            cooldown_resp.bind fun cdJ =>
            (jGetD cdJ "data" (.obj [])).bind fun cooldown =>
            (if cooldown.truthy then
              (jGetD cooldown "remainingSeconds" (.num 0)).bind fun rs =>
              jGtZero rs
            else pure false).bind fun on_cooldown =>
          if on_cooldown then
            (jIndex cooldown "remainingSeconds").bind fun rsv =>
            pure ⟨false, some ("Ship is on cooldown for " ++ jStr rsv ++ " seconds")⟩
          else
            (jGetD ship_data "cargo" (.obj [])).bind fun cargo =>
            (jGetD cargo "units" (.num 0)).bind fun units =>
            (jGetD cargo "capacity" (.num 0)).bind fun capacity =>
            (jGe units capacity).bind fun full =>
            if full then pure ⟨false, some "Cargo hold is full"⟩
            else pure ⟨true, none⟩

/-- Translation of SpaceTradersClient.can_ship_mine (lines 472-540): the
try-body runs under except Exception, which turns any raised error into a
can_mine=False dict with a prefixed reason. -/
def can_ship_mine (ship_resp waypoints_resp cooldown_resp : Except String JVal) :
    MineCheck :=
  match can_ship_mine_checks ship_resp waypoints_resp cooldown_resp with
  | .ok r => r
  | .error e => ⟨false, some ("Error checking mining capability: " ++ e)⟩

/-- Well-formedness of a can_ship_mine result: a negative verdict always
carries a non-empty reason string. -/
def WF (r : MineCheck) : Prop :=
  r.can_mine = false → ∃ msg, r.reason = some msg ∧ msg.length ≠ 0

theorem wf_bind {α : Type} (x : Except String α) (f : α → Except String MineCheck)
    (hf : ∀ a r, f a = .ok r → WF r) : ∀ r, x.bind f = .ok r → WF r := by
  intro r h
  cases x with
  | error e => simp [Except.bind] at h
  | ok a => exact hf a r (by simpa [Except.bind] using h)

theorem wf_pure (m : MineCheck) (hm : WF m) :
    ∀ r, (pure m : Except String MineCheck) = .ok r → WF r := by
  intro r h
  cases h
  exact hm

theorem wf_reason (s : String) (hs : s.length ≠ 0) :
    ∀ r, (pure (⟨false, some s⟩ : MineCheck) : Except String MineCheck) = .ok r → WF r :=
  wf_pure _ (fun _ => ⟨s, rfl, hs⟩)

theorem wf_ite (c : Prop) [Decidable c] (x y : Except String MineCheck)
    (hx : ∀ r, x = .ok r → WF r) (hy : ∀ r, y = .ok r → WF r) :
    ∀ r, (if c then x else y) = .ok r → WF r := by
  intro r h
  split_ifs at h
  · exact hx r h
  · exact hy r h

theorem string_append_length_ne (a b : String) (ha : a.length ≠ 0) :
    (a ++ b).length ≠ 0 := by
  rw [String.length_append]
  omega

theorem checks_wf (s w c : Except String JVal) :
    ∀ r, can_ship_mine_checks s w c = .ok r → WF r := by
  unfold can_ship_mine_checks
  refine wf_bind _ _ (fun shipJ => wf_bind _ _ (fun ship_data => ?_))
  refine wf_ite _ _ _ (wf_reason "Could not get ship data" (by decide)) ?_
  refine wf_bind _ _ (fun mounts => wf_bind _ _ (fun mountList =>
    wf_bind _ _ (fun has_mining_mount => ?_)))
  refine wf_ite _ _ _ (wf_reason "Ship does not have mining equipment" (by decide)) ?_
  refine wf_bind _ _ (fun nav => wf_bind _ _ (fun status => ?_))
  refine wf_ite _ _ _ (wf_reason "Ship must be in orbit to mine" (by decide)) ?_
  refine wf_bind _ _ (fun system => wf_bind _ _ (fun waypoint => ?_))
  refine wf_ite _ _ _ (wf_reason "Could not determine ship location" (by decide)) ?_
  refine wf_bind _ _ (fun wpJ => wf_bind _ _ (fun waypoints =>
    wf_bind _ _ (fun wpList => wf_bind _ _ (fun current_waypoint => ?_))))
  refine wf_bind _ _ (fun not_asteroid => ?_)
  refine wf_ite _ _ _ (wf_reason "Ship is not at an asteroid field" (by decide)) ?_
  refine wf_bind _ _ (fun cdJ => wf_bind _ _ (fun cooldown =>
    wf_bind _ _ (fun on_cooldown => ?_)))
  refine wf_ite _ _ _ (wf_bind _ _ (fun rsv =>
    wf_reason ("Ship is on cooldown for " ++ jStr rsv ++ " seconds")
      (string_append_length_ne "Ship is on cooldown for " _ (by decide)))) ?_
  refine wf_bind _ _ (fun cargo => wf_bind _ _ (fun units =>
    wf_bind _ _ (fun capacity => wf_bind _ _ (fun full => ?_))))
  exact wf_ite _ _ _ (wf_reason "Cargo hold is full" (by decide))
    (wf_pure _ (fun h => by cases h))

/-- Claim C9.  Whatever the three underlying API calls return — any JSON
value, or any raised exception — can_ship_mine never propagates: it always
produces a result dict with a boolean can_mine (the MineCheck type), and
whenever can_mine is False the reason field holds a non-empty string. -/
theorem c9_can_ship_mine_total (s w c : Except String JVal)
    (h : (can_ship_mine s w c).can_mine = false) :
    ∃ msg, (can_ship_mine s w c).reason = some msg ∧ msg.length ≠ 0 := by
  unfold can_ship_mine at h ⊢
  rcases hc : can_ship_mine_checks s w c with e | r
  all_goals rw [hc] at h
  · exact ⟨"Error checking mining capability: " ++ e, rfl,
      string_append_length_ne "Error checking mining capability: " e (by decide)⟩
  · exact checks_wf s w c r hc h

/-- Witness for claim C9: a ship response whose data field is missing
(defaulting to an empty, falsy dict) yields can_mine=False with the
non-empty reason of line 490. -/
theorem c9_can_ship_mine_total_witness :
    (can_ship_mine (.ok (.obj [])) (.ok .null) (.ok .null)).can_mine = false ∧
    ∃ msg, (can_ship_mine (.ok (.obj [])) (.ok .null) (.ok .null)).reason = some msg ∧
      msg.length ≠ 0 :=
  ⟨rfl, c9_can_ship_mine_total (.ok (.obj [])) (.ok .null) (.ok .null) rfl⟩

end STZ
